import Mathlib

/-!
Shallow embedding of the prototype replicated-state access layer
(`PrototypeStateMethods.cpp`) and of the velocypack load inspector
(`VPackLoadInspector`), with theorems checking the natural-language
specification against the code.
-/

set_option autoImplicit false

namespace ArangoModel

/-- Identifier of a replicated log (`LogId`, a tagged uint64). -/
abbrev LogId := Nat

/-- Position of an entry in a replicated log (`LogIndex`, uint64 `value`). -/
abbrev LogIndex := Nat

/-- The error codes from `voc-errors.h` that this slice of the code uses.
`internal` is `TRI_ERROR_INTERNAL`, the generic internal error. -/
inductive ErrorCode where
  | internal
  | notImplemented
  | replicatedLogLeaderResigned
  | other (n : Nat)
  deriving DecidableEq, Repr

/-- An `arangodb::Result`-style error payload: error code plus message. -/
structure ArangoErr where
  code : ErrorCode
  message : String
  deriving DecidableEq, Repr

/-- The failure modes of the methods facade, as thrown by the code:
`arangoException e` models `THROW_ARANGO_EXCEPTION`/`THROW_ARANGO_EXCEPTION_MESSAGE`,
`participantResigned e` models throwing `ParticipantResignedException`,
`velocypackException` models a velocypack extraction failure escaping. -/
inductive PrototypeError where
  | arangoException (e : ArangoErr)
  | participantResigned (e : ArangoErr)
  | velocypackException (msg : String)
  deriving DecidableEq, Repr

/-- A single quote character, used in source error messages. -/
def squote : String := (Char.ofNat 39).toString

/-- Velocypack values, as far as this code inspects them: objects keep their
attribute order (a `VPackObjectIterator` iterates in stored order). -/
inductive VPack where
  | vnull
  | vbool (b : Bool)
  | vuint (n : Nat)
  | vstr (s : String)
  | varr (elems : List VPack)
  | vobj (fields : List (String × VPack))
  deriving Repr

namespace VPack

/-- `Slice::get(attr)`: the first attribute with the given name, if any
(a missing attribute yields the none slice, modelled as `Option.none`). -/
def getAttr : VPack → String → Option VPack
  | .vobj fields, k => (fields.find? (fun kv => kv.1 = k)).map (·.2)
  | _, _ => none

/-- `Slice::isObject()`. -/
def isObject : VPack → Bool
  | .vobj _ => true
  | _ => false

/-- `Slice::length()` for objects and arrays. -/
def vlength : VPack → Nat
  | .vobj fields => fields.length
  | .varr elems => elems.length
  | _ => 0

/-- `Slice::valueAt(i)` on an object. -/
def valueAt : VPack → Nat → Option VPack
  | .vobj fields, i => (fields.get? i).map (·.2)
  | _, _ => none

/-- `Slice::copyString()`: succeeds only on a string slice, otherwise a
velocypack exception escapes. -/
def copyString : VPack → Except PrototypeError String
  | .vstr s => .ok s
  | _ => .error (.velocypackException "Expecting type String")

/-- `Slice::getNumber<uint64>()` / `extract<LogIndex>()` applied to the result
of an attribute lookup; a missing or non-numeric slice raises a velocypack
exception. -/
def extractLogIndex : Option VPack → Except PrototypeError LogIndex
  | some (.vuint n) => .ok n
  | _ => .error (.velocypackException "Expecting numeric type")

mutual

/-- `Slice::toJson()` (escaping of special characters inside strings is not
modelled; only the deterministic shape matters to the error messages). -/
def toJson : VPack → String
  | .vnull => "null"
  | .vbool true => "true"
  | .vbool false => "false"
  | .vuint n => Nat.repr n
  | .vstr s => "\"" ++ s ++ "\""
  | .varr elems => "[" ++ toJsonElems elems ++ "]"
  | .vobj fields => "\x7b" ++ toJsonFields fields ++ "\x7d"

/-- Comma-joined JSON rendering of array elements. -/
def toJsonElems : List VPack → String
  | [] => ""
  | [e] => toJson e
  | e :: rest => toJson e ++ "," ++ toJsonElems rest

/-- Comma-joined JSON rendering of object attributes. -/
def toJsonFields : List (String × VPack) → String
  | [] => ""
  | [kv] => "\"" ++ kv.1 ++ "\":" ++ toJson kv.2
  | kv :: rest => "\"" ++ kv.1 ++ "\":" ++ toJson kv.2 ++ "," ++ toJsonFields rest

end

end VPack

/-- `basics::StringUtils::joinT(sep, parts...)`. -/
def joinT (sep : String) : List String → String
  | [] => ""
  | [x] => x
  | x :: xs => x ++ sep ++ joinT sep xs

/-- `fuerte::RestVerb`, restricted to the verbs this file sends. -/
inductive RestVerb where
  | get
  | post
  | delete
  deriving DecidableEq, Repr

/-- `fuerte::statusIsSuccess`: 2xx. -/
def statusIsSuccess (code : Nat) : Bool := 200 ≤ code && code < 300

/-- `fuerte::StatusNotFound`. -/
def statusNotFound : Nat := 404

/-- One outgoing request of `network::sendRequest`: destination, verb, path,
optional velocypack body, and the `network::RequestOptions` (database and
query parameters) attached to it. -/
structure Request where
  destination : String
  verb : RestVerb
  path : String
  body : Option VPack
  database : String
  parameters : List (String × String)
  deriving Repr

/-- A `network::Response`: communication failure flag (`resp.fail()`),
HTTP status code, body slice, and the error payload `resp.combinedResult()`
reports (built by fuerte from the transport error and the remote error body,
which are outside this file; it is therefore carried abstractly). -/
structure Response where
  commError : Bool
  statusCode : Nat
  body : VPack
  combinedResult : ArangoErr
  deriving Repr

/-- `resp.fail()`. -/
def Response.failed (r : Response) : Bool := r.commError

/-- The continuation structure of a coordinator operation:
`network::sendRequest(...).thenValue(handler)` issues exactly one request and
applies `handler` to its response. -/
structure CoordinatorCall (α : Type) where
  request : Request
  handler : Response → Except PrototypeError α

/-- Run a coordinator operation against a network oracle, recording the list
of requests actually issued (none when the operation fails before sending). -/
def runOp {α : Type} (net : Request → Response) :
    Except PrototypeError (CoordinatorCall α) → Except PrototypeError α × List Request
  | .error e => (.error e, [])
  | .ok c => (c.handler (net c.request), [c.request])

/-- The external cluster-metadata collaborator: `ClusterInfo` as used here,
`getReplicatedLogLeader(database, id) -> ResultT<ServerID>`. -/
structure ClusterInfo where
  getReplicatedLogLeader : String → LogId → Except ArangoErr String

namespace PrototypeStateMethodsCoordinator

/-- `PrototypeStateMethodsCoordinator::getLogLeader`: resolve the leader via
cluster metadata; on a `REPLICATED_LOG_LEADER_RESIGNED` error throw a
`ParticipantResignedException`, on any other error rethrow it. -/
def getLogLeader (ci : ClusterInfo) (db : String) (id : LogId) :
    Except PrototypeError String :=
  match ci.getReplicatedLogLeader db id with
  | .error e =>
      if e.code = .replicatedLogLeaderResigned then
        .error (.participantResigned e)
      else
        .error (.arangoException e)
  | .ok s => .ok s

/-- `PrototypeStateMethodsCoordinator::processLogIndexResponse`. -/
def processLogIndexResponse (resp : Response) : Except PrototypeError LogIndex :=
  if resp.failed || !statusIsSuccess resp.statusCode then
    .error (.arangoException resp.combinedResult)
  else
    match resp.body.getAttr "result" with
    | some r =>
        if r.isObject && r.vlength = 1 then
          VPack.extractLogIndex (r.getAttr "index")
        else
          .error (.arangoException ⟨.internal,
            "expected result containing index in leader response: " ++ resp.body.toJson⟩)
    | none =>
        .error (.arangoException ⟨.internal,
          "expected result containing index in leader response: " ++ resp.body.toJson⟩)

/-- `PrototypeStateMethodsCoordinator::insert`. -/
def insert (ci : ClusterInfo) (db : String) (id : LogId)
    (entries : List (String × String)) :
    Except PrototypeError (CoordinatorCall LogIndex) := do
  let leader ← getLogLeader ci db id
  .ok { request :=
          { destination := "server:" ++ leader
            verb := .post
            path := joinT "/" ["_api/prototype-state", Nat.repr id, "insert"]
            body := some (.vobj (entries.map fun kv => (kv.1, .vstr kv.2)))
            database := db
            parameters := [] }
        handler := processLogIndexResponse }

/-- The response handler of the single-key `get`. -/
def getOneHandler (resp : Response) : Except PrototypeError (Option String) :=
  if resp.statusCode = statusNotFound then
    .ok none
  else if resp.failed || !statusIsSuccess resp.statusCode then
    .error (.arangoException resp.combinedResult)
  else
    match resp.body.getAttr "result" with
    | some r =>
        if r.isObject && r.vlength = 1 then
          match r.valueAt 0 with
          | some v => v.copyString.map some
          | none =>
              .error (.arangoException ⟨.internal,
                "expected result containing key-value pair in leader response: " ++
                  resp.body.toJson⟩)
        else
          .error (.arangoException ⟨.internal,
            "expected result containing key-value pair in leader response: " ++
              resp.body.toJson⟩)
    | none =>
        .error (.arangoException ⟨.internal,
          "expected result containing key-value pair in leader response: " ++
            resp.body.toJson⟩)

/-- `PrototypeStateMethodsCoordinator::get(LogId, std::string)`. -/
def get (ci : ClusterInfo) (db : String) (id : LogId) (key : String) :
    Except PrototypeError (CoordinatorCall (Option String)) := do
  let leader ← getLogLeader ci db id
  .ok { request :=
          { destination := "server:" ++ leader
            verb := .get
            path := joinT "/" ["_api/prototype-state", Nat.repr id, "entry", key]
            body := none
            database := db
            parameters := [] }
        handler := getOneHandler }

/-- `map.emplace(it.key.copyString(), it.value.copyString())` over a
`VPackObjectIterator`; a non-string value raises a velocypack exception. -/
def collectStringMap : List (String × VPack) → Except PrototypeError (List (String × String))
  | [] => .ok []
  | (k, v) :: rest => do
      let s ← v.copyString
      let tail ← collectStringMap rest
      .ok ((k, s) :: tail)

/-- The shared response handler of multi-`get` and `getSnapshot`: a success
body must hold an object under `result`, which is copied into a map. -/
def getMapHandler (what : String) (resp : Response) :
    Except PrototypeError (List (String × String)) :=
  if resp.failed || !statusIsSuccess resp.statusCode then
    .error (.arangoException resp.combinedResult)
  else
    match resp.body.getAttr "result" with
    | some (.vobj fields) => collectStringMap fields
    | _ =>
        .error (.arangoException ⟨.internal,
          "expected result containing map in leader response: " ++ what ++ resp.body.toJson⟩)

/-- `PrototypeStateMethodsCoordinator::get(LogId, std::vector<std::string>)`. -/
def multiGet (ci : ClusterInfo) (db : String) (id : LogId) (keys : List String) :
    Except PrototypeError (CoordinatorCall (List (String × String))) := do
  let leader ← getLogLeader ci db id
  .ok { request :=
          { destination := "server:" ++ leader
            verb := .post
            path := joinT "/" ["_api/prototype-state", Nat.repr id, "multi-get"]
            body := some (.varr (keys.map .vstr))
            database := db
            parameters := [] }
        handler := getMapHandler "" }

/-- `PrototypeStateMethodsCoordinator::getSnapshot`. -/
def getSnapshot (ci : ClusterInfo) (db : String) (id : LogId) (waitForIndex : LogIndex) :
    Except PrototypeError (CoordinatorCall (List (String × String))) := do
  let leader ← getLogLeader ci db id
  .ok { request :=
          { destination := "server:" ++ leader
            verb := .get
            path := joinT "/" ["_api/prototype-state", Nat.repr id, "snapshot"]
            body := none
            database := db
            parameters := [("waitForIndex", Nat.repr waitForIndex)] }
        handler := getMapHandler "" }

/-- `PrototypeStateMethodsCoordinator::remove(LogId, std::string)`. -/
def remove (ci : ClusterInfo) (db : String) (id : LogId) (key : String) :
    Except PrototypeError (CoordinatorCall LogIndex) := do
  let leader ← getLogLeader ci db id
  .ok { request :=
          { destination := "server:" ++ leader
            verb := .delete
            path := joinT "/" ["_api/prototype-state", Nat.repr id, "entry", key]
            body := none
            database := db
            parameters := [] }
        handler := processLogIndexResponse }

/-- `PrototypeStateMethodsCoordinator::remove(LogId, std::vector<std::string>)`. -/
def multiRemove (ci : ClusterInfo) (db : String) (id : LogId) (keys : List String) :
    Except PrototypeError (CoordinatorCall LogIndex) := do
  let leader ← getLogLeader ci db id
  .ok { request :=
          { destination := "server:" ++ leader
            verb := .delete
            path := joinT "/" ["_api/prototype-state", Nat.repr id, "multi-remove"]
            body := some (.varr (keys.map .vstr))
            database := db
            parameters := [] }
        handler := processLogIndexResponse }

end PrototypeStateMethodsCoordinator

/-- Modelled from the spec: the operations of a `PrototypeLeaderState` (its
implementation lives in `PrototypeStateMachine.cpp`/`PrototypeLeaderState`,
which is not among the shown sources). Spec section 4.1 describes it as the
authoritative in-memory key-value state: `set` (insert) and `remove` return
`Result<LogIndex>` and `getSnapshot` returns `Result<Snapshot>`, each able to
fail with `LeaderResigned`/`LogAppendFailed` error payloads, while the reads
`get(key)`/`get(keys)` cannot fail on missing keys. Each operation is an
abstract function field, its outcome — success or error payload — left
entirely free. -/
structure PrototypeLeaderState where
  set : List (String × String) → Except ArangoErr LogIndex
  getOne : String → Option String
  getMulti : List String → List (String × String)
  snapshot : LogIndex → Except ArangoErr (List (String × String))
  removeOne : String → Except ArangoErr LogIndex
  removeMulti : List String → Except ArangoErr LogIndex

/-- A leader `ResultT` outcome as the completion value of a methods-facade
call: a failed result completes the call with its error payload, the same
payload a thrown `arangodb::Exception` would carry (spec section 9 treats the
exception and Result representations of the section 7 taxonomy as
interchangeable). -/
def liftResult {α : Type} : Except ArangoErr α → Except PrototypeError α
  | .error e => .error (.arangoException e)
  | .ok x => .ok x

/-- A `ReplicatedState<PrototypeState>` instance as the methods facade sees
it: only `getLeader()` is called, which yields the leader state or null. -/
structure ReplicatedPrototypeState where
  getLeader : Option PrototypeLeaderState

/-- A `TRI_vocbase_t` as the methods facade sees it: a name and the
replicated-state registry lookup `getReplicatedStateById` (a missing id, or
an id whose state is not a prototype state so that the `dynamic_pointer_cast`
yields null, is `none`). -/
structure Vocbase where
  name : String
  getReplicatedStateById : LogId → Option ReplicatedPrototypeState

namespace PrototypeStateMethodsDBServer

/-- `PrototypeStateMethodsDBServer::getPrototypeStateLeaderById`. -/
def getPrototypeStateLeaderById (v : Vocbase) (id : LogId) :
    Except PrototypeError PrototypeLeaderState :=
  match v.getReplicatedStateById id with
  | none =>
      .error (.arangoException ⟨.internal,
        "Failed to get ProtoypeState with id " ++ Nat.repr id⟩)
  | some stateMachine =>
      match stateMachine.getLeader with
      | none =>
          .error (.arangoException ⟨.internal,
            "Failed to get leader of ProtoypeState with id " ++ Nat.repr id⟩)
      | some leader => .ok leader

/-- `PrototypeStateMethodsDBServer::insert`. -/
def insert (v : Vocbase) (id : LogId) (entries : List (String × String)) :
    Except PrototypeError LogIndex := do
  let leader ← getPrototypeStateLeaderById v id
  liftResult (leader.set entries)

/-- `PrototypeStateMethodsDBServer::get(LogId, std::string)`. -/
def get (v : Vocbase) (id : LogId) (key : String) :
    Except PrototypeError (Option String) := do
  let leader ← getPrototypeStateLeaderById v id
  .ok (leader.getOne key)

/-- `PrototypeStateMethodsDBServer::get(LogId, std::vector<std::string>)`. -/
def multiGet (v : Vocbase) (id : LogId) (keys : List String) :
    Except PrototypeError (List (String × String)) := do
  let leader ← getPrototypeStateLeaderById v id
  .ok (leader.getMulti keys)

/-- `PrototypeStateMethodsDBServer::getSnapshot`. -/
def getSnapshot (v : Vocbase) (id : LogId) (waitForIndex : LogIndex) :
    Except PrototypeError (List (String × String)) := do
  let leader ← getPrototypeStateLeaderById v id
  liftResult (leader.snapshot waitForIndex)

/-- `PrototypeStateMethodsDBServer::remove(LogId, std::string)`. -/
def remove (v : Vocbase) (id : LogId) (key : String) :
    Except PrototypeError LogIndex := do
  let leader ← getPrototypeStateLeaderById v id
  liftResult (leader.removeOne key)

/-- `PrototypeStateMethodsDBServer::remove(LogId, std::vector<std::string>)`. -/
def multiRemove (v : Vocbase) (id : LogId) (keys : List String) :
    Except PrototypeError LogIndex := do
  let leader ← getPrototypeStateLeaderById v id
  liftResult (leader.removeMulti keys)

end PrototypeStateMethodsDBServer

/-- `ServerState::RoleEnum`, the cluster roles a node can have. -/
inductive ServerRole where
  | undefined
  | single
  | dbserver
  | coordinator
  | agent
  deriving DecidableEq, Repr

/-- The two concrete method facade variants a call to `createInstance` can
construct. -/
inductive PrototypeStateMethodsInstance where
  | coordinator (vocbase : Vocbase)
  | dbserver (vocbase : Vocbase)

/-- `PrototypeStateMethods::createInstance`. -/
def createInstance (role : ServerRole) (vocbase : Vocbase) :
    Except PrototypeError PrototypeStateMethodsInstance :=
  match role with
  | .coordinator => .ok (.coordinator vocbase)
  | .dbserver => .ok (.dbserver vocbase)
  | _ =>
      .error (.arangoException ⟨.notImplemented,
        "api only on available coordinators or dbservers"⟩)

/-- The operations of the prototype-state wire surface, used to describe the
behaviour of the remote co-located endpoint. -/
inductive PrototypeOp where
  | insertOp (entries : List (String × String))
  | getOneOp (key : String)
  | multiGetOp (keys : List String)
  | snapshotOp (waitForIndex : LogIndex)
  | removeOneOp (key : String)
  | multiRemoveOp (keys : List String)

/-- A placeholder `combinedResult` for success responses (never inspected on
the success path). -/
def noErr : ArangoErr := ⟨.other 0, ""⟩

/-- Success response carrying `\x7bresult: \x7bindex: LogIndex\x7d\x7d`. -/
def okIndexResponse (idx : LogIndex) : Response :=
  { commError := false
    statusCode := 200
    body := .vobj [("result", .vobj [("index", .vuint idx)])]
    combinedResult := noErr }

/-- Success response carrying `\x7bresult: \x7bkey-value mapping\x7d\x7d`. -/
def okMapResponse (m : List (String × String)) : Response :=
  { commError := false
    statusCode := 200
    body := .vobj [("result", .vobj (m.map fun kv => (kv.1, .vstr kv.2)))]
    combinedResult := noErr }

/-- Modelled from the spec: a non-success response carrying the structured
error (code + message) of a failed leader operation, which spec section 6
requires the caller to surface; fuerte's `combinedResult()` rebuilds exactly
that payload from the error body. -/
def errorResponse (e : ArangoErr) : Response :=
  { commError := false
    statusCode := 500
    body := .vobj [("error", .vbool true), ("errorMessage", .vstr e.message)]
    combinedResult := e }

/-- Modelled from the spec: the co-located REST endpoint that the forwarding
variant talks to (the REST handler is not among the shown sources). Spec
section 6 gives the wire table: each operation is dispatched to the hosting
node's leader state; a successful result is wrapped in the
`\x7bresult: ...\x7d` envelope, a single-key get on an absent key answers
404 with no error body, and a failed leader result answers a non-success
status carrying the structured error. -/
def remoteEndpoint (leader : PrototypeLeaderState) : PrototypeOp → Response
  | .insertOp entries =>
      match leader.set entries with
      | .error e => errorResponse e
      | .ok idx => okIndexResponse idx
  | .getOneOp key =>
      match leader.getOne key with
      | none =>
          { commError := false
            statusCode := statusNotFound
            body := .vnull
            combinedResult := noErr }
      | some v => okMapResponse [(key, v)]
  | .multiGetOp keys => okMapResponse (leader.getMulti keys)
  | .snapshotOp waitForIndex =>
      match leader.snapshot waitForIndex with
      | .error e => errorResponse e
      | .ok m => okMapResponse m
  | .removeOneOp key =>
      match leader.removeOne key with
      | .error e => errorResponse e
      | .ok idx => okIndexResponse idx
  | .multiRemoveOp keys =>
      match leader.removeMulti keys with
      | .error e => errorResponse e
      | .ok idx => okIndexResponse idx

namespace Inspection

/-- `arangodb::inspection::ParseOptions`. -/
structure ParseOptions where
  ignoreUnknownFields : Bool := false

/-- The result type of the inspection machinery, reduced to what
`applyFields` produces: success or an error message. -/
abbrev InspResult := Except String Unit

/-- `std::find(names.begin(), names.end(), k)` over the declared field
names, as the index of the first match. -/
def idxOf : List String → String → Option Nat
  | [], _ => none
  | n :: ns, k => if n = k then some 0 else (idxOf ns k).map (· + 1)

/-- The collection loop of `VPackLoadInspector::applyFields`: walk the input
object's attributes in order; a declared attribute stores its slice at the
field's position (`slices[std::distance(...)] = v`), an undeclared one is
skipped when `ignoreUnknownFields` is set and otherwise aborts with
`Found unexpected attribute ...`. -/
def collectFields (names : List String) (ignore : Bool) :
    List (String × VPack) → List (Option VPack) → Except String (List (Option VPack))
  | [], slices => .ok slices
  | (k, v) :: rest, slices =>
      match idxOf names k with
      | some i => collectFields names ignore rest (slices.set i (some v))
      | none =>
          if ignore then
            collectFields names ignore rest slices
          else
            .error ("Found unexpected attribute " ++ squote ++ k ++ squote)

/-- `VPackLoadInspector::applyFields`: collect each declared field's slice
from the input object (undeclared attributes per `collectFields`), then hand
the slice array to `parseFields`; the variadic, type-directed `parseFields`
is abstracted as the continuation `parse`. -/
def applyFields (parse : List (Option VPack) → InspResult) (names : List String)
    (opts : ParseOptions) (obj : List (String × VPack)) : InspResult :=
  match collectFields names opts.ignoreUnknownFields obj
      (List.replicate names.length none) with
  | .error msg => .error msg
  | .ok slices => parse slices

end Inspection

/-! ## Helper lemmas and witness fixtures -/

/-- The error code carried by a failed methods-facade call, if any. -/
def errorCodeOf {α : Type} : Except PrototypeError α → Option ErrorCode
  | .error (.arangoException e) => some e.code
  | .error (.participantResigned e) => some e.code
  | .error (.velocypackException _) => none
  | .ok _ => none

/-- A vocbase with no replicated state registered at all. -/
def emptyVocbase : Vocbase :=
  { name := "database", getReplicatedStateById := fun _ => none }

/-- A vocbase whose replicated state instances all exist but have no leader. -/
def noLeaderVocbase : Vocbase :=
  { name := "database", getReplicatedStateById := fun _ => some ⟨none⟩ }

/-- A concrete leader state used to instantiate theorems with hypotheses;
its batched remove fails with a resigned-leader payload so that
instantiations also exercise a failed leader result. -/
def wLeader : PrototypeLeaderState :=
  { set := fun entries => .ok (entries.length + 1)
    getOne := fun k => if k = "a" then some "1" else none
    getMulti := fun keys => keys.map fun k => (k, "v")
    snapshot := fun _ => .ok [("a", "1"), ("b", "2")]
    removeOne := fun _ => .ok 7
    removeMulti := fun _ => .error ⟨.replicatedLogLeaderResigned, "leader resigned"⟩ }

/-- A vocbase hosting `wLeader` for every log id. -/
def wHostVocbase : Vocbase :=
  { name := "database", getReplicatedStateById := fun _ => some ⟨some wLeader⟩ }

/-- Cluster metadata that resolves every log to leader server `PRMR-1`. -/
def wOkCI : ClusterInfo :=
  { getReplicatedLogLeader := fun _ _ => .ok "PRMR-1" }

/-- The resigned-leader metadata error. -/
def wResignedErr : ArangoErr :=
  ⟨.replicatedLogLeaderResigned, "leader resigned"⟩

/-- Cluster metadata reporting the leader as resigned for every log. -/
def wResignedCI : ClusterInfo :=
  { getReplicatedLogLeader := fun _ _ => .error wResignedErr }

/-- A network oracle for instantiations; the response it returns. -/
def wFailResp : Response :=
  { commError := true, statusCode := 503, body := .vnull
    combinedResult := ⟨.other 1465, "connection refused"⟩ }

/-- A network oracle returning a transport failure for every request. -/
def wFailNet : Request → Response := fun _ => wFailResp

/-- A 404 response with no error body, used to instantiate theorems. -/
def w404Resp : Response :=
  { commError := false, statusCode := 404, body := .vnull, combinedResult := noErr }

/-- A success response carrying the one-entry result envelope. -/
def wOkResp : Response :=
  { commError := false, statusCode := 200
    body := .vobj [("result", .vobj [("k", .vstr "v1")])], combinedResult := noErr }

/-- A success response with the given body, used in theorem statements. -/
def okBodyResp (b : VPack) : Response :=
  { commError := false, statusCode := 200, body := b, combinedResult := noErr }


/-! ## Theorems -/

/-- Path of the form `prefix/<id>/<word>`. -/
theorem joinT_three (i w : String) :
    joinT "/" ["_api/prototype-state", i, w] =
      "_api/prototype-state/" ++ i ++ "/" ++ w := by
  simp [joinT, String.append_assoc]

/-- Path of the form `prefix/<id>/entry/<key>`. -/
theorem joinT_entry (i k : String) :
    joinT "/" ["_api/prototype-state", i, "entry", k] =
      "_api/prototype-state/" ++ i ++ "/entry/" ++ k := by
  simp [joinT, String.append_assoc]
  rw [← String.append_assoc "/" "entry/" k]
  rfl

/-- A failed or non-success response makes `processLogIndexResponse` rethrow
the combined result. -/
theorem processLogIndexResponse_fail (resp : Response)
    (hfail : (resp.failed || !statusIsSuccess resp.statusCode) = true) :
    PrototypeStateMethodsCoordinator.processLogIndexResponse resp =
      .error (.arangoException resp.combinedResult) := by
  unfold PrototypeStateMethodsCoordinator.processLogIndexResponse
  simp [hfail]

/-- The single-key get handler returns `none` exactly on a 404 response. -/
theorem getOneHandler_ok_none_iff (resp : Response) :
    PrototypeStateMethodsCoordinator.getOneHandler resp = .ok none ↔
      resp.statusCode = statusNotFound := by
  unfold PrototypeStateMethodsCoordinator.getOneHandler
  by_cases h404 : resp.statusCode = statusNotFound
  · simp [h404]
  · simp only [h404, if_false, iff_false]
    by_cases hf : (resp.failed || !statusIsSuccess resp.statusCode) = true
    · simp [hf]
    · simp only [Bool.not_eq_true] at hf
      simp only [hf, Bool.false_eq_true, if_false]
      rcases hres : resp.body.getAttr "result" with _ | r
      · simp
      · rcases r with _ | b | n | s | elems | fields <;>
          simp [VPack.isObject, VPack.vlength]
        rcases fields with _ | ⟨kv, rest⟩
        · simp
        · rcases rest with _ | ⟨kv2, rest⟩
          · rcases kv with ⟨k1, v1⟩
            rcases v1 with _ | b | n | s | elems | fields2 <;>
              simp [VPack.valueAt, VPack.copyString, Except.map]
          · simp

/-- On a success response carrying a one-entry result object, the single-key
get handler returns the value at position zero. -/
theorem getOneHandler_success (resp : Response) (k1 v : String)
    (hok : resp.failed = false) (hs : statusIsSuccess resp.statusCode = true)
    (hres : resp.body.getAttr "result" = some (.vobj [(k1, .vstr v)])) :
    PrototypeStateMethodsCoordinator.getOneHandler resp = .ok (some v) := by
  have h404 : resp.statusCode ≠ statusNotFound := by
    intro h
    rw [h] at hs
    exact absurd hs (by decide)
  unfold PrototypeStateMethodsCoordinator.getOneHandler
  simp [h404, hok, hs, hres, VPack.isObject, VPack.vlength, VPack.valueAt,
    VPack.copyString, Except.map]

/-- A failed or non-success response other than 404 makes the single-key get
handler rethrow the combined result. -/
theorem getOneHandler_fail (resp : Response)
    (h404 : resp.statusCode ≠ statusNotFound)
    (hfail : (resp.failed || !statusIsSuccess resp.statusCode) = true) :
    PrototypeStateMethodsCoordinator.getOneHandler resp =
      .error (.arangoException resp.combinedResult) := by
  unfold PrototypeStateMethodsCoordinator.getOneHandler
  simp [h404, hfail]

/-- A failed or non-success response makes the map-result handler rethrow the
combined result. -/
theorem getMapHandler_fail (what : String) (resp : Response)
    (hfail : (resp.failed || !statusIsSuccess resp.statusCode) = true) :
    PrototypeStateMethodsCoordinator.getMapHandler what resp =
      .error (.arangoException resp.combinedResult) := by
  unfold PrototypeStateMethodsCoordinator.getMapHandler
  simp [hfail]

/-- C9: `createInstance` returns the forwarding (coordinator) variant exactly
when the node's role is coordinator and the co-located (dbserver) variant
exactly when the role is dbserver; for every other role it fails with a
not-implemented error, so no methods facade instance is constructed there. -/
theorem C9_createInstance_role_dispatch (role : ServerRole) (v : Vocbase) :
    (createInstance role v = .ok (.coordinator v) ↔ role = .coordinator) ∧
    (createInstance role v = .ok (.dbserver v) ↔ role = .dbserver) ∧
    (role ≠ .coordinator → role ≠ .dbserver →
      createInstance role v = .error (.arangoException
        ⟨.notImplemented, "api only on available coordinators or dbservers"⟩)) := by
  cases role <;> simp [createInstance]

/-- Witness for C9, at the agent role. -/
theorem C9_witness :
    ServerRole.agent ≠ ServerRole.coordinator ∧
    ServerRole.agent ≠ ServerRole.dbserver ∧
    createInstance .agent emptyVocbase = .error (.arangoException
      ⟨.notImplemented, "api only on available coordinators or dbservers"⟩) :=
  ⟨by decide, by decide,
    (C9_createInstance_role_dispatch .agent emptyVocbase).2.2 (by decide) (by decide)⟩

/-- C2: on the forwarding (coordinator) variant, when cluster-metadata
resolution reports the leader as resigned, every operation fails with the
resignation-specific `ParticipantResignedException` (a constructor distinct
from a plain thrown error such as a not-leader error), and no request at all
is issued, so the failure is propagated without any internal retry. -/
theorem C2_coordinator_leader_resigned (ci : ClusterInfo) (db : String) (id : LogId)
    (e : ArangoErr) (entries : List (String × String)) (key : String)
    (keys : List String) (wfi : LogIndex) (net : Request → Response)
    (hres : ci.getReplicatedLogLeader db id = .error e)
    (hcode : e.code = .replicatedLogLeaderResigned) :
    runOp net (PrototypeStateMethodsCoordinator.insert ci db id entries) =
      (.error (.participantResigned e), []) ∧
    runOp net (PrototypeStateMethodsCoordinator.get ci db id key) =
      (.error (.participantResigned e), []) ∧
    runOp net (PrototypeStateMethodsCoordinator.multiGet ci db id keys) =
      (.error (.participantResigned e), []) ∧
    runOp net (PrototypeStateMethodsCoordinator.getSnapshot ci db id wfi) =
      (.error (.participantResigned e), []) ∧
    runOp net (PrototypeStateMethodsCoordinator.remove ci db id key) =
      (.error (.participantResigned e), []) ∧
    runOp net (PrototypeStateMethodsCoordinator.multiRemove ci db id keys) =
      (.error (.participantResigned e), []) ∧
    (∀ e2 : ArangoErr, PrototypeError.participantResigned e ≠ .arangoException e2) := by
  refine ⟨?_, ?_, ?_, ?_, ?_, ?_, by simp⟩ <;>
    simp [PrototypeStateMethodsCoordinator.insert, PrototypeStateMethodsCoordinator.get,
      PrototypeStateMethodsCoordinator.multiGet,
      PrototypeStateMethodsCoordinator.getSnapshot,
      PrototypeStateMethodsCoordinator.remove,
      PrototypeStateMethodsCoordinator.multiRemove,
      PrototypeStateMethodsCoordinator.getLogLeader, hres, hcode, runOp,
      Bind.bind, Except.bind]

/-- Witness for C2, with resigned metadata and a failing network oracle. -/
theorem C2_witness :
    runOp wFailNet (PrototypeStateMethodsCoordinator.insert wResignedCI "database" 12 [("k", "v")]) =
      (.error (.participantResigned wResignedErr), []) ∧
    runOp wFailNet (PrototypeStateMethodsCoordinator.get wResignedCI "database" 12 "k") =
      (.error (.participantResigned wResignedErr), []) ∧
    runOp wFailNet (PrototypeStateMethodsCoordinator.multiGet wResignedCI "database" 12 ["k"]) =
      (.error (.participantResigned wResignedErr), []) ∧
    runOp wFailNet (PrototypeStateMethodsCoordinator.getSnapshot wResignedCI "database" 12 3) =
      (.error (.participantResigned wResignedErr), []) ∧
    runOp wFailNet (PrototypeStateMethodsCoordinator.remove wResignedCI "database" 12 "k") =
      (.error (.participantResigned wResignedErr), []) ∧
    runOp wFailNet (PrototypeStateMethodsCoordinator.multiRemove wResignedCI "database" 12 ["k"]) =
      (.error (.participantResigned wResignedErr), []) ∧
    (∀ e2 : ArangoErr, PrototypeError.participantResigned wResignedErr ≠ .arangoException e2) :=
  C2_coordinator_leader_resigned wResignedCI "database" 12 wResignedErr
    [("k", "v")] "k" ["k"] 3 wFailNet rfl rfl

/-- C6: under a successful leader resolution, each forwarding-variant
operation issues exactly one request, with the verb, path, body and query
parameters of the wire table: POST `<api>/<id>/insert` with a key-value
object, GET `<api>/<id>/entry/<key>`, POST `<api>/<id>/multi-get` with an
array of keys, GET `<api>/<id>/snapshot` with query parameter
`waitForIndex`, DELETE `<api>/<id>/entry/<key>`, and DELETE
`<api>/<id>/multi-remove` with an array of keys. -/
theorem C6_wire_surface (ci : ClusterInfo) (db : String) (id : LogId) (ldr : String)
    (entries : List (String × String)) (key : String) (keys : List String)
    (wfi : LogIndex) (net : Request → Response)
    (hldr : ci.getReplicatedLogLeader db id = .ok ldr) :
    (runOp net (PrototypeStateMethodsCoordinator.insert ci db id entries)).2 =
      [{ destination := "server:" ++ ldr, verb := .post
         path := "_api/prototype-state/" ++ Nat.repr id ++ "/" ++ "insert"
         body := some (.vobj (entries.map fun kv => (kv.1, .vstr kv.2)))
         database := db, parameters := [] }] ∧
    (runOp net (PrototypeStateMethodsCoordinator.get ci db id key)).2 =
      [{ destination := "server:" ++ ldr, verb := .get
         path := "_api/prototype-state/" ++ Nat.repr id ++ "/entry/" ++ key
         body := none, database := db, parameters := [] }] ∧
    (runOp net (PrototypeStateMethodsCoordinator.multiGet ci db id keys)).2 =
      [{ destination := "server:" ++ ldr, verb := .post
         path := "_api/prototype-state/" ++ Nat.repr id ++ "/" ++ "multi-get"
         body := some (.varr (keys.map .vstr))
         database := db, parameters := [] }] ∧
    (runOp net (PrototypeStateMethodsCoordinator.getSnapshot ci db id wfi)).2 =
      [{ destination := "server:" ++ ldr, verb := .get
         path := "_api/prototype-state/" ++ Nat.repr id ++ "/" ++ "snapshot"
         body := none, database := db
         parameters := [("waitForIndex", Nat.repr wfi)] }] ∧
    (runOp net (PrototypeStateMethodsCoordinator.remove ci db id key)).2 =
      [{ destination := "server:" ++ ldr, verb := .delete
         path := "_api/prototype-state/" ++ Nat.repr id ++ "/entry/" ++ key
         body := none, database := db, parameters := [] }] ∧
    (runOp net (PrototypeStateMethodsCoordinator.multiRemove ci db id keys)).2 =
      [{ destination := "server:" ++ ldr, verb := .delete
         path := "_api/prototype-state/" ++ Nat.repr id ++ "/" ++ "multi-remove"
         body := some (.varr (keys.map .vstr))
         database := db, parameters := [] }] := by
  refine ⟨?_, ?_, ?_, ?_, ?_, ?_⟩ <;>
    simp [PrototypeStateMethodsCoordinator.insert, PrototypeStateMethodsCoordinator.get,
      PrototypeStateMethodsCoordinator.multiGet,
      PrototypeStateMethodsCoordinator.getSnapshot,
      PrototypeStateMethodsCoordinator.remove,
      PrototypeStateMethodsCoordinator.multiRemove,
      PrototypeStateMethodsCoordinator.getLogLeader, hldr, runOp,
      Bind.bind, Except.bind, joinT_three, joinT_entry]

/-- Witness for C6, at log id 12 with concrete arguments. -/
theorem C6_witness :
    (runOp wFailNet (PrototypeStateMethodsCoordinator.insert wOkCI "database" 12 [("k", "v")])).2 =
      [{ destination := "server:" ++ "PRMR-1", verb := .post
         path := "_api/prototype-state/" ++ Nat.repr 12 ++ "/" ++ "insert"
         body := some (.vobj ([("k", "v")].map fun kv => (kv.1, .vstr kv.2)))
         database := "database", parameters := [] }] ∧
    (runOp wFailNet (PrototypeStateMethodsCoordinator.get wOkCI "database" 12 "k")).2 =
      [{ destination := "server:" ++ "PRMR-1", verb := .get
         path := "_api/prototype-state/" ++ Nat.repr 12 ++ "/entry/" ++ "k"
         body := none, database := "database", parameters := [] }] ∧
    (runOp wFailNet (PrototypeStateMethodsCoordinator.multiGet wOkCI "database" 12 ["k"])).2 =
      [{ destination := "server:" ++ "PRMR-1", verb := .post
         path := "_api/prototype-state/" ++ Nat.repr 12 ++ "/" ++ "multi-get"
         body := some (.varr (["k"].map .vstr))
         database := "database", parameters := [] }] ∧
    (runOp wFailNet (PrototypeStateMethodsCoordinator.getSnapshot wOkCI "database" 12 3)).2 =
      [{ destination := "server:" ++ "PRMR-1", verb := .get
         path := "_api/prototype-state/" ++ Nat.repr 12 ++ "/" ++ "snapshot"
         body := none, database := "database"
         parameters := [("waitForIndex", Nat.repr 3)] }] ∧
    (runOp wFailNet (PrototypeStateMethodsCoordinator.remove wOkCI "database" 12 "k")).2 =
      [{ destination := "server:" ++ "PRMR-1", verb := .delete
         path := "_api/prototype-state/" ++ Nat.repr 12 ++ "/entry/" ++ "k"
         body := none, database := "database", parameters := [] }] ∧
    (runOp wFailNet (PrototypeStateMethodsCoordinator.multiRemove wOkCI "database" 12 ["k"])).2 =
      [{ destination := "server:" ++ "PRMR-1", verb := .delete
         path := "_api/prototype-state/" ++ Nat.repr 12 ++ "/" ++ "multi-remove"
         body := some (.varr (["k"].map .vstr))
         database := "database", parameters := [] }] :=
  C6_wire_surface wOkCI "database" 12 "PRMR-1" [("k", "v")] "k" ["k"] 3 wFailNet rfl

/-- C3: on the forwarding (coordinator) variant, when the network request
fails or the remote returns a non-success status, every operation fails by
rethrowing exactly `resp.combinedResult()` — the remote-reported error
payload — and exactly one request was issued, with no second attempt and no
conversion to a default value; only the single-key get carves out the 404
status (its absent-key case), all other operations rethrow on 404 too. -/
theorem C3_remote_request_failed (ci : ClusterInfo) (db : String) (id : LogId)
    (ldr : String) (entries : List (String × String)) (key : String)
    (keys : List String) (wfi : LogIndex) (resp : Response)
    (hldr : ci.getReplicatedLogLeader db id = .ok ldr)
    (hfail : (resp.failed || !statusIsSuccess resp.statusCode) = true) :
    (runOp (fun _ => resp) (PrototypeStateMethodsCoordinator.insert ci db id entries)).1 =
      .error (.arangoException resp.combinedResult) ∧
    (runOp (fun _ => resp) (PrototypeStateMethodsCoordinator.insert ci db id entries)).2.length = 1 ∧
    (resp.statusCode ≠ statusNotFound →
      (runOp (fun _ => resp) (PrototypeStateMethodsCoordinator.get ci db id key)).1 =
        .error (.arangoException resp.combinedResult)) ∧
    (runOp (fun _ => resp) (PrototypeStateMethodsCoordinator.get ci db id key)).2.length = 1 ∧
    (runOp (fun _ => resp) (PrototypeStateMethodsCoordinator.multiGet ci db id keys)).1 =
      .error (.arangoException resp.combinedResult) ∧
    (runOp (fun _ => resp) (PrototypeStateMethodsCoordinator.multiGet ci db id keys)).2.length = 1 ∧
    (runOp (fun _ => resp) (PrototypeStateMethodsCoordinator.getSnapshot ci db id wfi)).1 =
      .error (.arangoException resp.combinedResult) ∧
    (runOp (fun _ => resp) (PrototypeStateMethodsCoordinator.getSnapshot ci db id wfi)).2.length = 1 ∧
    (runOp (fun _ => resp) (PrototypeStateMethodsCoordinator.remove ci db id key)).1 =
      .error (.arangoException resp.combinedResult) ∧
    (runOp (fun _ => resp) (PrototypeStateMethodsCoordinator.remove ci db id key)).2.length = 1 ∧
    (runOp (fun _ => resp) (PrototypeStateMethodsCoordinator.multiRemove ci db id keys)).1 =
      .error (.arangoException resp.combinedResult) ∧
    (runOp (fun _ => resp) (PrototypeStateMethodsCoordinator.multiRemove ci db id keys)).2.length = 1 := by
  refine ⟨?_, ?_, fun h404 => ?_, ?_, ?_, ?_, ?_, ?_, ?_, ?_, ?_, ?_⟩
  case refine_3 =>
    simp [PrototypeStateMethodsCoordinator.get,
      PrototypeStateMethodsCoordinator.getLogLeader, hldr, runOp,
      Bind.bind, Except.bind, getOneHandler_fail resp h404 hfail]
  all_goals
    simp [PrototypeStateMethodsCoordinator.insert, PrototypeStateMethodsCoordinator.get,
      PrototypeStateMethodsCoordinator.multiGet,
      PrototypeStateMethodsCoordinator.getSnapshot,
      PrototypeStateMethodsCoordinator.remove,
      PrototypeStateMethodsCoordinator.multiRemove,
      PrototypeStateMethodsCoordinator.getLogLeader, hldr, runOp,
      Bind.bind, Except.bind, processLogIndexResponse_fail resp hfail,
      getMapHandler_fail "" resp hfail]

/-- Witness for C3, against a network oracle that reports a transport
failure with status 503. -/
theorem C3_witness :
    (runOp (fun _ => wFailResp) (PrototypeStateMethodsCoordinator.insert wOkCI "database" 12 [("k", "v")])).1 =
      .error (.arangoException wFailResp.combinedResult) ∧
    (runOp (fun _ => wFailResp) (PrototypeStateMethodsCoordinator.insert wOkCI "database" 12 [("k", "v")])).2.length = 1 ∧
    (runOp (fun _ => wFailResp) (PrototypeStateMethodsCoordinator.get wOkCI "database" 12 "k")).1 =
      .error (.arangoException wFailResp.combinedResult) ∧
    (runOp (fun _ => wFailResp) (PrototypeStateMethodsCoordinator.get wOkCI "database" 12 "k")).2.length = 1 ∧
    (runOp (fun _ => wFailResp) (PrototypeStateMethodsCoordinator.multiGet wOkCI "database" 12 ["k"])).1 =
      .error (.arangoException wFailResp.combinedResult) ∧
    (runOp (fun _ => wFailResp) (PrototypeStateMethodsCoordinator.multiGet wOkCI "database" 12 ["k"])).2.length = 1 ∧
    (runOp (fun _ => wFailResp) (PrototypeStateMethodsCoordinator.getSnapshot wOkCI "database" 12 3)).1 =
      .error (.arangoException wFailResp.combinedResult) ∧
    (runOp (fun _ => wFailResp) (PrototypeStateMethodsCoordinator.getSnapshot wOkCI "database" 12 3)).2.length = 1 ∧
    (runOp (fun _ => wFailResp) (PrototypeStateMethodsCoordinator.remove wOkCI "database" 12 "k")).1 =
      .error (.arangoException wFailResp.combinedResult) ∧
    (runOp (fun _ => wFailResp) (PrototypeStateMethodsCoordinator.remove wOkCI "database" 12 "k")).2.length = 1 ∧
    (runOp (fun _ => wFailResp) (PrototypeStateMethodsCoordinator.multiRemove wOkCI "database" 12 ["k"])).1 =
      .error (.arangoException wFailResp.combinedResult) ∧
    (runOp (fun _ => wFailResp) (PrototypeStateMethodsCoordinator.multiRemove wOkCI "database" 12 ["k"])).2.length = 1 := by
  have h := C3_remote_request_failed wOkCI "database" 12 "PRMR-1" [("k", "v")] "k" ["k"] 3
    wFailResp rfl (by decide)
  exact ⟨h.1, h.2.1, h.2.2.1 (by decide), h.2.2.2⟩

/-- C5: a forwarded single-key get returns `none` exactly when the remote
answers 404, and on a success response carrying the one-entry
`\x7bresult: \x7bkey: value\x7d\x7d` envelope it returns that value; a
missing key is never signalled as an error. -/
theorem C5_get_one_absent_and_present (ci : ClusterInfo) (db : String)
    (id : LogId) (ldr key : String) (resp : Response)
    (hldr : ci.getReplicatedLogLeader db id = .ok ldr) :
    ((runOp (fun _ => resp) (PrototypeStateMethodsCoordinator.get ci db id key)).1 =
        .ok none ↔ resp.statusCode = statusNotFound) ∧
    (∀ (k1 v : String), resp.failed = false → statusIsSuccess resp.statusCode = true →
      resp.body.getAttr "result" = some (.vobj [(k1, .vstr v)]) →
      (runOp (fun _ => resp) (PrototypeStateMethodsCoordinator.get ci db id key)).1 =
        .ok (some v)) := by
  have hrun : (runOp (fun _ => resp) (PrototypeStateMethodsCoordinator.get ci db id key)).1 =
      PrototypeStateMethodsCoordinator.getOneHandler resp := by
    simp [PrototypeStateMethodsCoordinator.get,
      PrototypeStateMethodsCoordinator.getLogLeader, hldr, runOp,
      Bind.bind, Except.bind]
  rw [hrun]
  exact ⟨getOneHandler_ok_none_iff resp,
    fun k1 v hok hs hres => getOneHandler_success resp k1 v hok hs hres⟩

/-- Witness for C5: at a 404 response the call returns `none`, and at a
one-entry success envelope it returns the value. -/
theorem C5_witness :
    ((runOp (fun _ => w404Resp) (PrototypeStateMethodsCoordinator.get wOkCI "database" 12 "k")).1 =
        .ok none ↔ w404Resp.statusCode = statusNotFound) ∧
    (runOp (fun _ => wOkResp) (PrototypeStateMethodsCoordinator.get wOkCI "database" 12 "k")).1 =
      .ok (some "v1") :=
  ⟨(C5_get_one_absent_and_present wOkCI "database" 12 "PRMR-1" "k" w404Resp rfl).1,
    (C5_get_one_absent_and_present wOkCI "database" 12 "PRMR-1" "k" wOkResp rfl).2
      "k" "v1" rfl rfl rfl⟩

/-- C10: a forwarded single-key get on a success response whose `result`
object has exactly one entry returns the value at position zero without
comparing the entry's key against the requested key (below, the requested key
`k` and the response key `k1` are unrelated); a `result` object with zero or
two entries is rejected as malformed rather than yielding a value. -/
theorem C10_get_one_positional_value (ci : ClusterInfo) (db : String)
    (id : LogId) (ldr k k1 k2 v v1 v2 : String)
    (hldr : ci.getReplicatedLogLeader db id = .ok ldr) :
    ((runOp (fun _ => okBodyResp (.vobj [("result", .vobj [(k1, .vstr v)])]))
        (PrototypeStateMethodsCoordinator.get ci db id k)).1 = .ok (some v)) ∧
    ((runOp (fun _ => okBodyResp (.vobj [("result", .vobj [])]))
        (PrototypeStateMethodsCoordinator.get ci db id k)).1 =
      .error (.arangoException ⟨.internal,
        "expected result containing key-value pair in leader response: " ++
          (VPack.vobj [("result", .vobj [])]).toJson⟩)) ∧
    ((runOp (fun _ => okBodyResp (.vobj [("result", .vobj [(k1, .vstr v1), (k2, .vstr v2)])]))
        (PrototypeStateMethodsCoordinator.get ci db id k)).1 =
      .error (.arangoException ⟨.internal,
        "expected result containing key-value pair in leader response: " ++
          (VPack.vobj [("result", .vobj [(k1, .vstr v1), (k2, .vstr v2)])]).toJson⟩)) := by
  refine ⟨?_, ?_, ?_⟩ <;>
    simp [PrototypeStateMethodsCoordinator.get,
      PrototypeStateMethodsCoordinator.getLogLeader, hldr, runOp,
      Bind.bind, Except.bind, PrototypeStateMethodsCoordinator.getOneHandler,
      okBodyResp, Response.failed, statusNotFound, statusIsSuccess, VPack.getAttr,
      List.find?, VPack.isObject, VPack.vlength, VPack.valueAt, VPack.copyString,
      Except.map]

/-- Witness for C10, with response key `other` different from the requested
key `k`. -/
theorem C10_witness :
    ((runOp (fun _ => okBodyResp (.vobj [("result", .vobj [("other", .vstr "v1")])]))
        (PrototypeStateMethodsCoordinator.get wOkCI "database" 12 "k")).1 = .ok (some "v1")) ∧
    ((runOp (fun _ => okBodyResp (.vobj [("result", .vobj [])]))
        (PrototypeStateMethodsCoordinator.get wOkCI "database" 12 "k")).1 =
      .error (.arangoException ⟨.internal,
        "expected result containing key-value pair in leader response: " ++
          (VPack.vobj [("result", .vobj [])]).toJson⟩)) ∧
    ((runOp (fun _ => okBodyResp (.vobj [("result", .vobj [("other", .vstr "1"), ("b", .vstr "2")])]))
        (PrototypeStateMethodsCoordinator.get wOkCI "database" 12 "k")).1 =
      .error (.arangoException ⟨.internal,
        "expected result containing key-value pair in leader response: " ++
          (VPack.vobj [("result", .vobj [("other", .vstr "1"), ("b", .vstr "2")])]).toJson⟩)) :=
  C10_get_one_positional_value wOkCI "database" 12 "PRMR-1" "k" "other" "b" "v1" "1" "2" rfl


/-- C1 counterexample: on the co-located (DBServer) variant, both the
missing-instance case and the missing-leader case fail with
`TRI_ERROR_INTERNAL` — the generic internal error code — contradicting the
claim that these failures carry dedicated `StateNotFound`/`NotLeader` codes
distinguishable from a generic internal error. -/
theorem C1_counterexample :
    PrototypeStateMethodsDBServer.insert emptyVocbase 1 [("k", "v")] =
      .error (.arangoException ⟨.internal, "Failed to get ProtoypeState with id 1"⟩) ∧
    errorCodeOf (PrototypeStateMethodsDBServer.insert emptyVocbase 1 [("k", "v")]) =
      some .internal ∧
    PrototypeStateMethodsDBServer.get noLeaderVocbase 1 "k" =
      .error (.arangoException ⟨.internal,
        "Failed to get leader of ProtoypeState with id 1"⟩) ∧
    errorCodeOf (PrototypeStateMethodsDBServer.get noLeaderVocbase 1 "k") =
      some .internal :=
  ⟨rfl, rfl, rfl, rfl⟩

/-- C1 as amended: on the co-located (DBServer) variant, an operation on a
LogId with no active prototype state instance fails with `TRI_ERROR_INTERNAL`
and message `Failed to get ProtoypeState with id <id>`, and one whose
instance exists but has no leader on this node fails with
`TRI_ERROR_INTERNAL` and message `Failed to get leader of ProtoypeState with
id <id>`; the two cases are distinguishable from one another only by message
text, both carrying the generic internal error code. -/
theorem C1_amended_dbserver_internal (v : Vocbase) (id : LogId)
    (entries : List (String × String)) (key : String) (keys : List String)
    (wfi : LogIndex) :
    (v.getReplicatedStateById id = none →
      PrototypeStateMethodsDBServer.insert v id entries = .error (.arangoException
        ⟨.internal, "Failed to get ProtoypeState with id " ++ Nat.repr id⟩) ∧
      PrototypeStateMethodsDBServer.get v id key = .error (.arangoException
        ⟨.internal, "Failed to get ProtoypeState with id " ++ Nat.repr id⟩) ∧
      PrototypeStateMethodsDBServer.multiGet v id keys = .error (.arangoException
        ⟨.internal, "Failed to get ProtoypeState with id " ++ Nat.repr id⟩) ∧
      PrototypeStateMethodsDBServer.getSnapshot v id wfi = .error (.arangoException
        ⟨.internal, "Failed to get ProtoypeState with id " ++ Nat.repr id⟩) ∧
      PrototypeStateMethodsDBServer.remove v id key = .error (.arangoException
        ⟨.internal, "Failed to get ProtoypeState with id " ++ Nat.repr id⟩) ∧
      PrototypeStateMethodsDBServer.multiRemove v id keys = .error (.arangoException
        ⟨.internal, "Failed to get ProtoypeState with id " ++ Nat.repr id⟩)) ∧
    (∀ sm, v.getReplicatedStateById id = some sm → sm.getLeader = none →
      PrototypeStateMethodsDBServer.insert v id entries = .error (.arangoException
        ⟨.internal, "Failed to get leader of ProtoypeState with id " ++ Nat.repr id⟩) ∧
      PrototypeStateMethodsDBServer.get v id key = .error (.arangoException
        ⟨.internal, "Failed to get leader of ProtoypeState with id " ++ Nat.repr id⟩) ∧
      PrototypeStateMethodsDBServer.multiGet v id keys = .error (.arangoException
        ⟨.internal, "Failed to get leader of ProtoypeState with id " ++ Nat.repr id⟩) ∧
      PrototypeStateMethodsDBServer.getSnapshot v id wfi = .error (.arangoException
        ⟨.internal, "Failed to get leader of ProtoypeState with id " ++ Nat.repr id⟩) ∧
      PrototypeStateMethodsDBServer.remove v id key = .error (.arangoException
        ⟨.internal, "Failed to get leader of ProtoypeState with id " ++ Nat.repr id⟩) ∧
      PrototypeStateMethodsDBServer.multiRemove v id keys = .error (.arangoException
        ⟨.internal, "Failed to get leader of ProtoypeState with id " ++ Nat.repr id⟩)) := by
  constructor
  · intro hnone
    refine ⟨?_, ?_, ?_, ?_, ?_, ?_⟩ <;>
      simp [PrototypeStateMethodsDBServer.insert, PrototypeStateMethodsDBServer.get,
        PrototypeStateMethodsDBServer.multiGet,
        PrototypeStateMethodsDBServer.getSnapshot,
        PrototypeStateMethodsDBServer.remove,
        PrototypeStateMethodsDBServer.multiRemove,
        PrototypeStateMethodsDBServer.getPrototypeStateLeaderById, hnone,
        Bind.bind, Except.bind]
  · intro sm hsome hleader
    refine ⟨?_, ?_, ?_, ?_, ?_, ?_⟩ <;>
      simp [PrototypeStateMethodsDBServer.insert, PrototypeStateMethodsDBServer.get,
        PrototypeStateMethodsDBServer.multiGet,
        PrototypeStateMethodsDBServer.getSnapshot,
        PrototypeStateMethodsDBServer.remove,
        PrototypeStateMethodsDBServer.multiRemove,
        PrototypeStateMethodsDBServer.getPrototypeStateLeaderById, hsome, hleader,
        Bind.bind, Except.bind]

/-- Witness for the amended C1, at log id 1 in a vocbase with no instance and
in one with a leaderless instance. -/
theorem C1_amended_witness :
    PrototypeStateMethodsDBServer.insert emptyVocbase 1 [("k", "v")] =
      .error (.arangoException
        ⟨.internal, "Failed to get ProtoypeState with id " ++ Nat.repr 1⟩) ∧
    PrototypeStateMethodsDBServer.multiRemove noLeaderVocbase 1 ["k"] =
      .error (.arangoException
        ⟨.internal, "Failed to get leader of ProtoypeState with id " ++ Nat.repr 1⟩) :=
  ⟨((C1_amended_dbserver_internal emptyVocbase 1 [("k", "v")] "k" ["k"] 3).1 rfl).1,
    (((C1_amended_dbserver_internal noLeaderVocbase 1 [("k", "v")] "k" ["k"] 3).2
      ⟨none⟩ rfl rfl).2.2.2.2.2)⟩



/-- `idxOf` misses exactly the names that are not declared. -/
theorem idxOf_eq_none_iff (names : List String) (k : String) :
    Inspection.idxOf names k = none ↔ k ∉ names := by
  induction names with
  | nil => simp [Inspection.idxOf]
  | cons n ns ih =>
    by_cases h : n = k
    · simp [Inspection.idxOf, h]
    · simp [Inspection.idxOf, h, ih, Ne.symm h]

/-- `idxOf` hits exactly the declared names. -/
theorem idxOf_isSome_iff (names : List String) (k : String) :
    (Inspection.idxOf names k).isSome = true ↔ k ∈ names := by
  rw [Option.isSome_iff_ne_none, not_iff_comm, ← idxOf_eq_none_iff]

/-- With `ignoreUnknownFields` unset, the collection loop aborts at the first
undeclared attribute, naming it. -/
theorem collectFields_unknown (names : List String) (k : String) (v : VPack)
    (rest : List (String × VPack)) (hk : Inspection.idxOf names k = none) :
    ∀ (pre : List (String × VPack)) (acc : List (Option VPack)),
      (∀ kv ∈ pre, (Inspection.idxOf names kv.1).isSome = true) →
      Inspection.collectFields names false (pre ++ (k, v) :: rest) acc =
        .error ("Found unexpected attribute " ++ squote ++ k ++ squote) := by
  intro pre
  induction pre with
  | nil =>
    intro acc _
    simp [Inspection.collectFields, hk]
  | cons kv pre ih =>
    intro acc hpre
    obtain ⟨k1, v1⟩ := kv
    have h1 : (Inspection.idxOf names k1).isSome = true := hpre (k1, v1) (by simp)
    rcases hi : Inspection.idxOf names k1 with _ | i
    · rw [hi] at h1
      exact absurd h1 (by simp)
    · simp only [List.cons_append, Inspection.collectFields, hi]
      exact ih _ (fun kv2 h2 => hpre kv2 (by simp [h2]))

/-- With `ignoreUnknownFields` set, the collection loop behaves exactly as on
the input object with its undeclared attributes removed. -/
theorem collectFields_ignore_filter (names : List String) :
    ∀ (obj : List (String × VPack)) (acc : List (Option VPack)),
      Inspection.collectFields names true obj acc =
        Inspection.collectFields names false
          (obj.filter fun kv => (Inspection.idxOf names kv.1).isSome) acc := by
  intro obj
  induction obj with
  | nil => intro acc; simp [Inspection.collectFields]
  | cons kv rest ih =>
    intro acc
    obtain ⟨k, v⟩ := kv
    rcases hi : Inspection.idxOf names k with _ | i
    · simp [Inspection.collectFields, hi, List.filter_cons, ih]
    · simp [Inspection.collectFields, hi, List.filter_cons, ih]

/-- C8: in `applyFields`, an input attribute whose name is not among the
declared fields makes the decode fail with a message naming that attribute
when `ignoreUnknownFields` is false (shown for the first such attribute), and
with `ignoreUnknownFields` true the decode of any object proceeds exactly as
if its undeclared attributes were absent. -/
theorem C8_applyFields_unknown_fields (parse : List (Option VPack) → Inspection.InspResult)
    (names : List String) (obj pre rest : List (String × VPack))
    (k : String) (v : VPack)
    (hobj : obj = pre ++ (k, v) :: rest)
    (hpre : ∀ kv ∈ pre, kv.1 ∈ names)
    (hk : k ∉ names) :
    Inspection.applyFields parse names ⟨false⟩ obj =
      .error ("Found unexpected attribute " ++ squote ++ k ++ squote) ∧
    (∀ (obj2 : List (String × VPack)),
      Inspection.applyFields parse names ⟨true⟩ obj2 =
        Inspection.applyFields parse names ⟨false⟩
          (obj2.filter fun kv => decide (kv.1 ∈ names))) := by
  constructor
  · unfold Inspection.applyFields
    rw [hobj, collectFields_unknown names k v rest ((idxOf_eq_none_iff names k).mpr hk)
      pre _ (fun kv h => (idxOf_isSome_iff names kv.1).mpr (hpre kv h))]
  · intro obj2
    unfold Inspection.applyFields
    rw [collectFields_ignore_filter names obj2]
    have hfeq : (obj2.filter fun kv => (Inspection.idxOf names kv.1).isSome) =
        (obj2.filter fun kv => decide (kv.1 ∈ names)) := by
      apply List.filter_congr
      intro kv _
      by_cases h : kv.1 ∈ names
      · simp [h, (idxOf_isSome_iff names kv.1).mpr h]
      · have h0 : Inspection.idxOf names kv.1 = none :=
          (idxOf_eq_none_iff names kv.1).mpr h
        simp [h, h0]
    rw [hfeq]

/-- Witness for C8: declared fields `a`, `b`; the input object carries the
undeclared attribute `c`. -/
theorem C8_witness :
    Inspection.applyFields (fun _ => .ok ()) ["a", "b"] ⟨false⟩
        [("a", .vuint 1), ("c", .vuint 2)] =
      .error ("Found unexpected attribute " ++ squote ++ "c" ++ squote) ∧
    (∀ (obj2 : List (String × VPack)),
      Inspection.applyFields (fun _ => .ok ()) ["a", "b"] ⟨true⟩ obj2 =
        Inspection.applyFields (fun _ => .ok ()) ["a", "b"] ⟨false⟩
          (obj2.filter fun kv => decide (kv.1 ∈ ["a", "b"]))) :=
  C8_applyFields_unknown_fields (fun _ => .ok ()) ["a", "b"]
    [("a", .vuint 1), ("c", .vuint 2)] [("a", .vuint 1)] [] "c" (.vuint 2)
    rfl (by simp) (by simp)



/-- Copying the string-map envelope back out of velocypack is the identity on
the original map. -/
theorem collectStringMap_of_map (m : List (String × String)) :
    PrototypeStateMethodsCoordinator.collectStringMap
        (m.map fun kv => (kv.1, .vstr kv.2)) = .ok m := by
  induction m with
  | nil => rfl
  | cons kv rest ih =>
    obtain ⟨k, s⟩ := kv
    simp [PrototypeStateMethodsCoordinator.collectStringMap, VPack.copyString, ih,
      Bind.bind, Except.bind]

/-- C7: against a remote endpoint that serves each operation from the same
leader state that the co-located variant resolves locally (the wire
behaviour of spec section 6), every forwarding-variant operation returns
exactly the co-located variant's result — for successful leader results and
for failed ones alike, whose structured error payload crosses the wire as a
non-success response and is rethrown unchanged — the transport envelope
cancelled out by the response handlers. -/
theorem C7_forwarding_refines_colocated (v : Vocbase) (sm : ReplicatedPrototypeState)
    (leader : PrototypeLeaderState) (ci : ClusterInfo) (db : String) (id : LogId)
    (ldr : String) (entries : List (String × String)) (key : String)
    (keys : List String) (wfi : LogIndex)
    (hstate : v.getReplicatedStateById id = some sm)
    (hleader : sm.getLeader = some leader)
    (hldr : ci.getReplicatedLogLeader db id = .ok ldr) :
    (runOp (fun _ => remoteEndpoint leader (.insertOp entries))
        (PrototypeStateMethodsCoordinator.insert ci db id entries)).1 =
      PrototypeStateMethodsDBServer.insert v id entries ∧
    (runOp (fun _ => remoteEndpoint leader (.getOneOp key))
        (PrototypeStateMethodsCoordinator.get ci db id key)).1 =
      PrototypeStateMethodsDBServer.get v id key ∧
    (runOp (fun _ => remoteEndpoint leader (.multiGetOp keys))
        (PrototypeStateMethodsCoordinator.multiGet ci db id keys)).1 =
      PrototypeStateMethodsDBServer.multiGet v id keys ∧
    (runOp (fun _ => remoteEndpoint leader (.snapshotOp wfi))
        (PrototypeStateMethodsCoordinator.getSnapshot ci db id wfi)).1 =
      PrototypeStateMethodsDBServer.getSnapshot v id wfi ∧
    (runOp (fun _ => remoteEndpoint leader (.removeOneOp key))
        (PrototypeStateMethodsCoordinator.remove ci db id key)).1 =
      PrototypeStateMethodsDBServer.remove v id key ∧
    (runOp (fun _ => remoteEndpoint leader (.multiRemoveOp keys))
        (PrototypeStateMethodsCoordinator.multiRemove ci db id keys)).1 =
      PrototypeStateMethodsDBServer.multiRemove v id keys := by
  refine ⟨?_, ?_, ?_, ?_, ?_, ?_⟩
  case refine_1 =>
    rcases hop : leader.set entries with e | idx <;>
      simp [PrototypeStateMethodsCoordinator.insert, PrototypeStateMethodsDBServer.insert,
        PrototypeStateMethodsCoordinator.getLogLeader,
        PrototypeStateMethodsDBServer.getPrototypeStateLeaderById,
        hstate, hleader, hldr, hop, runOp, Bind.bind, Except.bind,
        remoteEndpoint, okIndexResponse, errorResponse, liftResult,
        Response.failed, statusIsSuccess,
        PrototypeStateMethodsCoordinator.processLogIndexResponse,
        VPack.getAttr, List.find?, VPack.isObject, VPack.vlength,
        VPack.extractLogIndex]
  case refine_2 =>
    rcases hop : leader.getOne key with _ | w <;>
      simp [PrototypeStateMethodsCoordinator.get, PrototypeStateMethodsDBServer.get,
        PrototypeStateMethodsCoordinator.getLogLeader,
        PrototypeStateMethodsDBServer.getPrototypeStateLeaderById,
        hstate, hleader, hldr, hop, runOp, Bind.bind, Except.bind,
        remoteEndpoint, okMapResponse, Response.failed, statusIsSuccess,
        statusNotFound, PrototypeStateMethodsCoordinator.getOneHandler,
        VPack.getAttr, List.find?, VPack.isObject, VPack.vlength,
        VPack.valueAt, VPack.copyString, Except.map]
  case refine_3 =>
    simp [PrototypeStateMethodsCoordinator.multiGet, PrototypeStateMethodsDBServer.multiGet,
      PrototypeStateMethodsCoordinator.getLogLeader,
      PrototypeStateMethodsDBServer.getPrototypeStateLeaderById,
      hstate, hleader, hldr, runOp, Bind.bind, Except.bind,
      remoteEndpoint, okMapResponse, Response.failed, statusIsSuccess,
      PrototypeStateMethodsCoordinator.getMapHandler,
      VPack.getAttr, List.find?, VPack.isObject, collectStringMap_of_map]
  case refine_4 =>
    rcases hop : leader.snapshot wfi with e | m <;>
      simp [PrototypeStateMethodsCoordinator.getSnapshot,
        PrototypeStateMethodsDBServer.getSnapshot,
        PrototypeStateMethodsCoordinator.getLogLeader,
        PrototypeStateMethodsDBServer.getPrototypeStateLeaderById,
        hstate, hleader, hldr, hop, runOp, Bind.bind, Except.bind,
        remoteEndpoint, okMapResponse, errorResponse, liftResult,
        Response.failed, statusIsSuccess,
        PrototypeStateMethodsCoordinator.getMapHandler,
        VPack.getAttr, List.find?, VPack.isObject, collectStringMap_of_map]
  case refine_5 =>
    rcases hop : leader.removeOne key with e | idx <;>
      simp [PrototypeStateMethodsCoordinator.remove, PrototypeStateMethodsDBServer.remove,
        PrototypeStateMethodsCoordinator.getLogLeader,
        PrototypeStateMethodsDBServer.getPrototypeStateLeaderById,
        hstate, hleader, hldr, hop, runOp, Bind.bind, Except.bind,
        remoteEndpoint, okIndexResponse, errorResponse, liftResult,
        Response.failed, statusIsSuccess,
        PrototypeStateMethodsCoordinator.processLogIndexResponse,
        VPack.getAttr, List.find?, VPack.isObject, VPack.vlength,
        VPack.extractLogIndex]
  case refine_6 =>
    rcases hop : leader.removeMulti keys with e | idx <;>
      simp [PrototypeStateMethodsCoordinator.multiRemove,
        PrototypeStateMethodsDBServer.multiRemove,
        PrototypeStateMethodsCoordinator.getLogLeader,
        PrototypeStateMethodsDBServer.getPrototypeStateLeaderById,
        hstate, hleader, hldr, hop, runOp, Bind.bind, Except.bind,
        remoteEndpoint, okIndexResponse, errorResponse, liftResult,
        Response.failed, statusIsSuccess,
        PrototypeStateMethodsCoordinator.processLogIndexResponse,
        VPack.getAttr, List.find?, VPack.isObject, VPack.vlength,
        VPack.extractLogIndex]

/-- Witness for C7, with a concrete leader hosted for log id 12. -/
theorem C7_witness :
    (runOp (fun _ => remoteEndpoint wLeader (.insertOp [("k", "v")]))
        (PrototypeStateMethodsCoordinator.insert wOkCI "database" 12 [("k", "v")])).1 =
      PrototypeStateMethodsDBServer.insert wHostVocbase 12 [("k", "v")] ∧
    (runOp (fun _ => remoteEndpoint wLeader (.getOneOp "a"))
        (PrototypeStateMethodsCoordinator.get wOkCI "database" 12 "a")).1 =
      PrototypeStateMethodsDBServer.get wHostVocbase 12 "a" ∧
    (runOp (fun _ => remoteEndpoint wLeader (.multiGetOp ["a", "b"]))
        (PrototypeStateMethodsCoordinator.multiGet wOkCI "database" 12 ["a", "b"])).1 =
      PrototypeStateMethodsDBServer.multiGet wHostVocbase 12 ["a", "b"] ∧
    (runOp (fun _ => remoteEndpoint wLeader (.snapshotOp 3))
        (PrototypeStateMethodsCoordinator.getSnapshot wOkCI "database" 12 3)).1 =
      PrototypeStateMethodsDBServer.getSnapshot wHostVocbase 12 3 ∧
    (runOp (fun _ => remoteEndpoint wLeader (.removeOneOp "a"))
        (PrototypeStateMethodsCoordinator.remove wOkCI "database" 12 "a")).1 =
      PrototypeStateMethodsDBServer.remove wHostVocbase 12 "a" ∧
    (runOp (fun _ => remoteEndpoint wLeader (.multiRemoveOp ["a", "b"]))
        (PrototypeStateMethodsCoordinator.multiRemove wOkCI "database" 12 ["a", "b"])).1 =
      PrototypeStateMethodsDBServer.multiRemove wHostVocbase 12 ["a", "b"] :=
  C7_forwarding_refines_colocated wHostVocbase ⟨some wLeader⟩ wLeader wOkCI
    "database" 12 "PRMR-1" [("k", "v")] "a" ["a", "b"] 3 rfl rfl rfl


end ArangoModel
